import Mathlib

/-!
Shallow embedding of `altair/utils/mimebundle.py`: the functions
`spec_to_mimebundle`, `_spec_to_mimebundle_with_engine` and
`_validate_normalize_engine`, with the module's external collaborators
(the HTML generator, the two optional rendering engines, the schema-version
constant and the data-transformer registry) modelled as parameters of an
environment record. Python exceptions are modelled by an explicit error
type threaded through `Except`; the process-wide data-transformer state is
threaded explicitly, so every function returns its result together with the
final transformer state.
-/

/-- The Python exception kinds this module can raise: `ValueError` (the
user-facing validation failure, carrying its message), `AssertionError`
(from the bare `assert` statement) and `IndexError` (from indexing an empty
string with `[0]`). -/
inductive Err where
  | valueError (msg : String)
  | assertionError
  | indexError (msg : String)
  deriving DecidableEq

/-- A mimebundle payload: a spec/dict, a text string, or a byte sequence. -/
inductive Value (α : Type) where
  | vspec (s : α)
  | vstr (s : String)
  | vbytes (b : List Nat)
  deriving DecidableEq

/-- A mimebundle: a Python dict from MIME-type string to payload, as an
association list in insertion order. -/
abbrev Mimebundle (α : Type) : Type := List (String × Value α)

/-- Modelled from the spec: the state of the process-wide data-transformer
registry (`altair.vegalite.v5.data.data_transformers`, outside this module):
the name of the active transformer and whether the max-rows limit is
disabled. -/
structure DTState where
  active : String
  maxRowsDisabled : Bool
  deriving DecidableEq

/-- Python `repr` of a simple string (no quotes or escapes inside): the
string wrapped in single quotes, as the `{x!r}` format specifier prints it. -/
def pyRepr (s : String) : String := "'" ++ s ++ "'"

/-- Python `s[0]` on a string: the first character as a one-character string,
or `IndexError` when the string is empty. -/
def pyFirstChar (s : String) : Except Err String :=
  match s.data with
  | [] => Except.error (Err.indexError "string index out of range")
  | c :: _ => Except.ok (String.singleton c)

/-- Python `s.replace(c, "")` for a one-character pattern `c`: the string
with every occurrence of that character removed. -/
def removeChar (c : Char) (s : String) : String :=
  String.mk (s.data.filter (fun x => x ≠ c))

/-- Python `s.lower()` (the engine strings are ASCII). -/
def pyLower (s : String) : String :=
  String.mk (s.data.map Char.toLower)

/-- `engine.lower().replace("-", "").replace("_", "")`. -/
def normalizedEngineString (e : String) : String :=
  removeChar '_' (removeChar '-' (pyLower e))

/-- `None if engine is None else engine.lower().replace("-", "").replace("_", "")`. -/
def normalizeEngine (engine : Option String) : Option String :=
  engine.map normalizedEngineString

/-- Message raised when the vl-convert engine is requested but absent. -/
def vlcRequiresMsg : String :=
  "The 'vl-convert' conversion engine requires the vl-convert-python package"

/-- Message raised when the vl-convert engine is requested for a format it
does not support (pdf). -/
def vlcNoPdfMsg (fmt : String) : String :=
  "The 'vl-convert' conversion engine does not support the " ++ pyRepr fmt ++
    " format.\nUse the 'altair_saver' engine instead"

/-- Message raised when the altair_saver engine is requested but absent. -/
def saverRequiresMsg : String :=
  "The 'altair_saver' conversion engine requires the altair_saver package"

/-- Message raised when no engine is requested, none is usable, and the
format is pdf. -/
def pdfNeedsSaverMsg (fmt : String) : String :=
  "Saving charts in " ++ pyRepr fmt ++
    " format requires the altair_saver package: see http://github.com/altair-viz/altair_saver/"

/-- Message raised when no engine is requested, none is usable, and the
format is not pdf. -/
def needsEitherPackageMsg (fmt : String) : String :=
  "Saving charts in " ++ pyRepr fmt ++
    " format requires the vl-convert-python or altair_saver package: see http://github.com/altair-viz/altair_saver/"

/-- Message raised for an engine string whose normalized form is unknown;
note it quotes the original, un-normalized engine string. -/
def invalidEngineMsg (engine : String) : String :=
  "Invalid conversion engine " ++ pyRepr engine ++
    ". Expected one of ('vl-convert', 'altair_saver')"

/-- `_validate_normalize_engine(engine, format)` from the source. The two
booleans model the outcome of the optional-import probes of `vl_convert`
and `altair_saver` (`True` = importable). Python compares the normalized
string against each engine name in turn; an unspecified engine (None)
normalizes to None and falls through to the inference branch. -/
def _validate_normalize_engine (vlcAvailable altairSaverAvailable : Bool)
    (engine : Option String) (format : String) : Except Err String :=
  match engine with
  | some e =>
    let ne := normalizedEngineString e
    if ne = "vlconvert" then
      if vlcAvailable = false then
        Except.error (Err.valueError vlcRequiresMsg)
      else if format = "pdf" then
        Except.error (Err.valueError (vlcNoPdfMsg format))
      else
        Except.ok "vlconvert"
    else if ne = "altairsaver" then
      if altairSaverAvailable = false then
        Except.error (Err.valueError saverRequiresMsg)
      else
        Except.ok "altairsaver"
    else
      Except.error (Err.valueError (invalidEngineMsg e))
  | none =>
    if vlcAvailable = true ∧ format ≠ "pdf" then
      Except.ok "vlconvert"
    else if altairSaverAvailable = true then
      Except.ok "altairsaver"
    else if format = "pdf" then
      Except.error (Err.valueError (pdfNeedsSaverMsg format))
    else
      Except.error (Err.valueError (needsEitherPackageMsg format))

/-- The keyword arguments this module itself reads: the `engine` override
(popped before dispatch) and `scale_factor` (read with default 1.0 on the
png path, forwarded otherwise). Other passthrough keys play no role in the
claims and are not modelled. -/
structure Kwargs where
  engine : Option String
  scale_factor : Option Rat
  deriving DecidableEq

/-- The module's external collaborators, treated as black boxes: the two
optional-import probes, the `SCHEMA_VERSION` constant (e.g. "v5.20.0"), the
three vl-convert conversion entry points, `altair_saver.render`, and
`spec_to_html`. Each fallible collaborator may raise (return `Except.error`). -/
structure Env (α : Type) where
  vlcAvailable : Bool
  altairSaverAvailable : Bool
  schemaVersion : String
  vegaliteToVega : α → String → Except Err α
  vegaliteToSvg : α → String → Except Err String
  vegaliteToPng : α → String → Rat → Except Err (List Nat)
  altairSaverRender : α → String → Option String → Kwargs → Except Err (Mimebundle α)
  specToHtml : α → Option String → Option String → Option String → Option String →
    Kwargs → Except Err String

/-- Python `s.split(c)` for a one-character separator: the pieces between
occurrences of the separator (Python yields `[""]` on the empty string). -/
def splitOnChar (c : Char) : List Char → List (List Char)
  | [] => [[]]
  | x :: xs =>
    let r := splitOnChar c xs
    if x = c then [] :: r
    else
      match r with
      | [] => [[x]]
      | h :: t => (x :: h) :: t

/-- Python `sep.join(parts)`. -/
def joinWith (sep : String) : List String → String
  | [] => ""
  | [x] => x
  | x :: xs => x ++ sep ++ joinWith sep xs

/-- `"_".join(SCHEMA_VERSION.split(".")[:2])`. -/
def vlVersionToken (schemaVersion : String) : String :=
  joinWith "_" (((splitOnChar '.' schemaVersion.data).map String.mk).take 2)

/-- Modelled from the spec: the combined context managers
`data_transformers.enable("default"), data_transformers.disable_max_rows()`
(outside this module). On entry the active transformer becomes "default"
with row-limiting disabled; on exit — normal or exceptional — the saved
prior registry state is restored, so the body's result (or exception) is
returned together with the unchanged prior state. -/
def withTransformerOverride {β : Type} (st : DTState)
    (body : DTState → Except Err β) : Except Err β × DTState :=
  (body { active := "default", maxRowsDisabled := true }, st)

/-- `_spec_to_mimebundle_with_engine(spec, format, mode, **kwargs)` from the
source: pop the engine override, resolve the engine, then dispatch. The
vl-convert branch runs under the scoped transformer override; the
altair_saver branch forwards the remaining kwargs (engine removed) to
`altair_saver.render` and returns its result unmodified. -/
def _spec_to_mimebundle_with_engine {α : Type} (env : Env α) (spec : α)
    (format : String) (mode : Option String) (kwargs : Kwargs) (st : DTState) :
    Except Err (Mimebundle α) × DTState :=
  match _validate_normalize_engine env.vlcAvailable env.altairSaverAvailable
      kwargs.engine format with
  | Except.error e => (Except.error e, st)
  | Except.ok normalized =>
    if normalized = "vlconvert" then
      let vl_version := vlVersionToken env.schemaVersion
      withTransformerOverride st (fun _ =>
        if format = "vega" then
          match env.vegaliteToVega spec vl_version with
          | Except.error e => Except.error e
          | Except.ok vg => Except.ok [("application/vnd.vega.v5+json", Value.vspec vg)]
        else if format = "svg" then
          match env.vegaliteToSvg spec vl_version with
          | Except.error e => Except.error e
          | Except.ok svg => Except.ok [("image/svg+xml", Value.vstr svg)]
        else if format = "png" then
          match env.vegaliteToPng spec vl_version (kwargs.scale_factor.getD 1) with
          | Except.error e => Except.error e
          | Except.ok png => Except.ok [("image/png", Value.vbytes png)]
        else
          Except.error (Err.valueError ("Unexpected format " ++ pyRepr format)))
    else if normalized = "altairsaver" then
      (env.altairSaverRender spec format mode { kwargs with engine := none }, st)
    else
      (Except.error (Err.valueError ("Unexpected normalized_engine " ++
        pyRepr normalized)), st)

/-- `spec_to_mimebundle(spec, format, mode, vega_version, vegaembed_version,
vegalite_version, **kwargs)` from the source, with the sequential branch
structure kept one-to-one (including the unreachable
`raise ValueError("Cannot convert a vega spec to vegalite")` shadowed by the
preceding `assert mode == "vega-lite"`). -/
def spec_to_mimebundle {α : Type} (env : Env α) (spec : α) (format : String)
    (mode : Option String)
    (vega_version vegaembed_version vegalite_version : Option String)
    (kwargs : Kwargs) (st : DTState) : Except Err (Mimebundle α) × DTState :=
  if ¬(mode = some "vega" ∨ mode = some "vega-lite") then
    (Except.error (Err.valueError "mode must be either 'vega' or 'vega-lite'"), st)
  else if mode = some "vega" ∧ format = "vega" then
    match vega_version with
    | none => (Except.error (Err.valueError "Must specify vega_version"), st)
    | some v =>
      match pyFirstChar v with
      | Except.error e => (Except.error e, st)
      | Except.ok c =>
        (Except.ok [("application/vnd.vega.v" ++ c ++ "+json", Value.vspec spec)], st)
  else if format = "png" ∨ format = "svg" ∨ format = "pdf" ∨ format = "vega" then
    _spec_to_mimebundle_with_engine env spec format mode kwargs st
  else if format = "html" then
    match env.specToHtml spec mode vega_version vegaembed_version vegalite_version
        kwargs with
    | Except.error e => (Except.error e, st)
    | Except.ok html => (Except.ok [("text/html", Value.vstr html)], st)
  else if format = "vega-lite" then
    if ¬(mode = some "vega-lite") then
      (Except.error Err.assertionError, st)
    else if mode = some "vega" then
      (Except.error (Err.valueError "Cannot convert a vega spec to vegalite"), st)
    else
      match vegalite_version with
      | none => (Except.error (Err.valueError "Must specify vegalite_version"), st)
      | some v =>
        match pyFirstChar v with
        | Except.error e => (Except.error e, st)
        | Except.ok c =>
          (Except.ok [("application/vnd.vegalite.v" ++ c ++ "+json", Value.vspec spec)], st)
  else if format = "json" then
    (Except.ok [("application/json", Value.vspec spec)], st)
  else
    (Except.error (Err.valueError "format must be one of ['html', 'json', 'png', 'svg', 'pdf', 'vega', 'vega-lite']"), st)

/-- A concrete environment for witnesses: both engines importable, every
collaborator total, and `altair_saver.render` returning a single-entry
bundle. -/
def testEnv : Env Nat where
  vlcAvailable := true
  altairSaverAvailable := true
  schemaVersion := "v5.20.0"
  vegaliteToVega := fun s _ => Except.ok s
  vegaliteToSvg := fun _ _ => Except.ok "<svg></svg>"
  vegaliteToPng := fun _ _ _ => Except.ok [137, 80, 78, 71]
  altairSaverRender := fun _ _ _ _ => Except.ok [("application/pdf", Value.vstr "%PDF")]
  specToHtml := fun _ _ _ _ _ _ => Except.ok "<html></html>"

/-- Concrete kwargs for witnesses: no engine override, no scale factor. -/
def testKwargs : Kwargs where
  engine := none
  scale_factor := none

/-- A concrete prior data-transformer state for witnesses. -/
def testState : DTState where
  active := "custom"
  maxRowsDisabled := false

/-- An environment whose altair_saver collaborator returns a two-entry
mapping: the vl-convert probe fails, the altair_saver probe succeeds. -/
def twoEntryEnv : Env Nat where
  vlcAvailable := false
  altairSaverAvailable := true
  schemaVersion := "v5.20.0"
  vegaliteToVega := fun s _ => Except.ok s
  vegaliteToSvg := fun _ _ => Except.ok ""
  vegaliteToPng := fun _ _ _ => Except.ok []
  altairSaverRender := fun _ _ _ _ =>
    Except.ok [("image/png", Value.vbytes [1]), ("image/svg+xml", Value.vstr "x")]
  specToHtml := fun _ _ _ _ _ _ => Except.ok ""


/-- C1: with mode="vega", format="vega" and a non-empty vega_version, the call
returns the single-entry mapping whose key is "application/vnd.vega.v" followed
by the first character of vega_version and "+json", and whose value is the spec. -/
theorem vega_passthrough_bundle {α : Type} (env : Env α) (spec : α)
    (vegaembed_version vegalite_version : Option String) (kwargs : Kwargs)
    (st : DTState) (c : Char) (cs : List Char) :
    spec_to_mimebundle env spec "vega" (some "vega") (some (String.mk (c :: cs)))
        vegaembed_version vegalite_version kwargs st
      = (Except.ok [("application/vnd.vega.v" ++ String.singleton c ++ "+json",
          Value.vspec spec)], st) := by
  simp [spec_to_mimebundle, pyFirstChar]

/-- C2: any mode other than the exact strings "vega" and "vega-lite" (None
included) is rejected up front with a ValueError, whatever the other
arguments are. -/
theorem invalid_mode_rejected {α : Type} (env : Env α) (spec : α)
    (format : String) (mode : Option String)
    (vega_version vegaembed_version vegalite_version : Option String)
    (kwargs : Kwargs) (st : DTState)
    (h1 : mode ≠ some "vega") (h2 : mode ≠ some "vega-lite") :
    (spec_to_mimebundle env spec format mode vega_version vegaembed_version
        vegalite_version kwargs st).1
      = Except.error (Err.valueError "mode must be either 'vega' or 'vega-lite'") := by
  simp [spec_to_mimebundle, h1, h2]

/-- Witness for invalid_mode_rejected: the unspecified mode (None) is rejected. -/
theorem invalid_mode_rejected_witness :
    (spec_to_mimebundle testEnv 0 "json" none none none none testKwargs testState).1
      = Except.error (Err.valueError "mode must be either 'vega' or 'vega-lite'") :=
  invalid_mode_rejected testEnv 0 "json" none none none none testKwargs testState
    (by simp) (by simp)

/-- C7 counterexample: with mode unspecified (None) and format="json" the call
does not return the json bundle; the mode check fires first with a ValueError. -/
theorem json_any_mode_counterexample :
    (spec_to_mimebundle testEnv 0 "json" none none none none testKwargs testState).1
      = Except.error (Err.valueError "mode must be either 'vega' or 'vega-lite'")
    ∧ Except.error (Err.valueError "mode must be either 'vega' or 'vega-lite'")
      ≠ (Except.ok [("application/json", Value.vspec 0)] :
          Except Err (Mimebundle Nat)) := by
  exact ⟨rfl, by simp⟩

/-- C7 amended: for every spec and every version argument, a call with
format="json" and a valid mode ("vega" or "vega-lite") returns exactly the
single-entry bundle mapping "application/json" to the spec; an invalid mode is
rejected before the json branch is reached. -/
theorem json_passthrough_bundle {α : Type} (env : Env α) (spec : α)
    (mode : Option String)
    (vega_version vegaembed_version vegalite_version : Option String)
    (kwargs : Kwargs) (st : DTState)
    (h : mode = some "vega" ∨ mode = some "vega-lite") :
    spec_to_mimebundle env spec "json" mode vega_version vegaembed_version
        vegalite_version kwargs st
      = (Except.ok [("application/json", Value.vspec spec)], st) := by
  rcases h with h | h <;> subst h <;> simp [spec_to_mimebundle]

/-- Witness for json_passthrough_bundle at mode="vega". -/
theorem json_passthrough_bundle_witness :
    spec_to_mimebundle testEnv 0 "json" (some "vega") none none none testKwargs
        testState
      = (Except.ok [("application/json", Value.vspec 0)], testState) :=
  json_passthrough_bundle testEnv 0 (some "vega") none none none testKwargs testState
    (Or.inl rfl)

/-- C5 (code bug): at mode="vega", format="vega-lite" the call fails with
AssertionError from `assert mode == "vega-lite"`, not with the single
user-facing ValueError kind; the explicit
`raise ValueError("Cannot convert a vega spec to vegalite")` on the next
line is unreachable because the assert fires first. -/
theorem vega_to_vegalite_raises_assertion :
    (spec_to_mimebundle testEnv 0 "vega-lite" (some "vega") none none
        (some "5.2.0") testKwargs testState).1
      = Except.error Err.assertionError
    ∧ Err.assertionError ≠ Err.valueError "Cannot convert a vega spec to vegalite" := by
  exact ⟨rfl, by simp⟩

/-- C6 counterexample: with the version present but empty, both passthrough
paths fail with IndexError from `version[0]` (Python string indexing), not
with the ValueError the claim requires. -/
theorem empty_version_counterexample :
    (spec_to_mimebundle testEnv 0 "vega" (some "vega") (some "") none none
        testKwargs testState).1
      = Except.error (Err.indexError "string index out of range")
    ∧ (spec_to_mimebundle testEnv 0 "vega-lite" (some "vega-lite") none none
        (some "") testKwargs testState).1
      = Except.error (Err.indexError "string index out of range")
    ∧ (∀ m, Err.indexError "string index out of range" ≠ Err.valueError m) := by
  refine ⟨rfl, rfl, fun m => by simp⟩

/-- C6 amended: an absent version (None) fails with the must-specify
ValueError on both passthrough paths; an empty version string fails as well,
but with IndexError from indexing the empty string, not ValueError. -/
theorem version_required {α : Type} (env : Env α) (spec : α)
    (vv ev lv : Option String) (kwargs : Kwargs) (st : DTState) :
    ((spec_to_mimebundle env spec "vega" (some "vega") none ev lv kwargs st).1
      = Except.error (Err.valueError "Must specify vega_version"))
    ∧ ((spec_to_mimebundle env spec "vega" (some "vega") (some "") ev lv kwargs st).1
      = Except.error (Err.indexError "string index out of range"))
    ∧ ((spec_to_mimebundle env spec "vega-lite" (some "vega-lite") vv ev none kwargs st).1
      = Except.error (Err.valueError "Must specify vegalite_version"))
    ∧ ((spec_to_mimebundle env spec "vega-lite" (some "vega-lite") vv ev (some "") kwargs st).1
      = Except.error (Err.indexError "string index out of range")) := by
  refine ⟨?_, ?_, ?_, ?_⟩ <;> simp [spec_to_mimebundle, pyFirstChar]

/-- C3: with no engine override, the resolver picks "vlconvert" whenever the
vl-convert probe succeeds and the format is not pdf; otherwise "altairsaver"
when that probe succeeds; otherwise it fails with a ValueError naming the
altair_saver package for pdf and either package for other formats. -/
theorem default_engine_resolution (vlcA asA : Bool) (format : String) :
    (vlcA = true → format ≠ "pdf" →
      _validate_normalize_engine vlcA asA none format = Except.ok "vlconvert")
    ∧ (¬(vlcA = true ∧ format ≠ "pdf") → asA = true →
      _validate_normalize_engine vlcA asA none format = Except.ok "altairsaver")
    ∧ (¬(vlcA = true ∧ format ≠ "pdf") → asA = false → format = "pdf" →
      _validate_normalize_engine vlcA asA none format
        = Except.error (Err.valueError (pdfNeedsSaverMsg format)))
    ∧ (¬(vlcA = true ∧ format ≠ "pdf") → asA = false → format ≠ "pdf" →
      _validate_normalize_engine vlcA asA none format
        = Except.error (Err.valueError (needsEitherPackageMsg format))) := by
  unfold _validate_normalize_engine
  refine ⟨fun h1 h2 => ?_, fun h1 h2 => ?_, fun h1 h2 h3 => ?_, fun h1 h2 h3 => ?_⟩ <;>
    simp_all

/-- Witness for default_engine_resolution: each of the four rows of the
resolution table at a concrete availability and format. -/
theorem default_engine_resolution_witness :
    _validate_normalize_engine true false none "svg" = Except.ok "vlconvert"
    ∧ _validate_normalize_engine false true none "pdf" = Except.ok "altairsaver"
    ∧ _validate_normalize_engine false false none "pdf"
        = Except.error (Err.valueError (pdfNeedsSaverMsg "pdf"))
    ∧ _validate_normalize_engine false false none "svg"
        = Except.error (Err.valueError (needsEitherPackageMsg "svg")) :=
  ⟨(default_engine_resolution true false "svg").1 rfl (by simp),
   (default_engine_resolution false true "pdf").2.1 (by simp) rfl,
   (default_engine_resolution false false "pdf").2.2.1 (by simp) rfl rfl,
   (default_engine_resolution false false "svg").2.2.2 (by simp) rfl (by simp)⟩

/-- C4 counterexample: when the vl-convert probe fails, format="pdf" with
engine="vl-convert" is rejected with the missing-dependency message, which is
not the unsupported-combination message the claim requires for every call. -/
theorem pdf_vlconvert_counterexample :
    _validate_normalize_engine false true (some "vl-convert") "pdf"
      = Except.error (Err.valueError vlcRequiresMsg)
    ∧ vlcRequiresMsg ≠ vlcNoPdfMsg "pdf" := by
  refine ⟨by rfl, by decide⟩

/-- C4 amended: a call with format="pdf" and an engine override normalizing
to "vlconvert" always fails with a ValueError; when the vl-convert dependency
is installed the message names the unsupported format/engine combination and
suggests the altair_saver engine, and when it is absent the message names the
missing dependency instead. -/
theorem pdf_vlconvert_rejected (vlcA asA : Bool) (e : String)
    (h : normalizedEngineString e = "vlconvert") :
    (vlcA = true →
      _validate_normalize_engine vlcA asA (some e) "pdf"
        = Except.error (Err.valueError (vlcNoPdfMsg "pdf")))
    ∧ (vlcA = false →
      _validate_normalize_engine vlcA asA (some e) "pdf"
        = Except.error (Err.valueError vlcRequiresMsg)) := by
  unfold _validate_normalize_engine
  refine ⟨fun hv => ?_, fun hv => ?_⟩ <;> subst hv <;> simp [h]

/-- Witness for pdf_vlconvert_rejected: pdf with the installed vl-convert
engine is still rejected, with the unsupported-combination message. -/
theorem pdf_vlconvert_rejected_witness :
    _validate_normalize_engine true true (some "vl-convert") "pdf"
      = Except.error (Err.valueError (vlcNoPdfMsg "pdf")) :=
  (pdf_vlconvert_rejected true true "vl-convert" (by decide)).1 rfl

/-- Helper for the engine-insensitivity claim: two override strings with the
same normalization and a valid normalized form resolve to syntactically equal
results (the error messages of the valid branches never quote the original
string). -/
theorem resolve_some_congr (vlcA asA : Bool) (format : String) (e1 e2 : String)
    (h : normalizedEngineString e1 = normalizedEngineString e2)
    (hv : normalizedEngineString e1 = "vlconvert"
      ∨ normalizedEngineString e1 = "altairsaver") :
    _validate_normalize_engine vlcA asA (some e1) format
      = _validate_normalize_engine vlcA asA (some e2) format := by
  unfold _validate_normalize_engine
  rcases hv with hv | hv <;> simp only [← h, hv] <;> simp

/-- C8 amended: two engine override strings that agree after lowercasing and
removing "-" and "_" resolve with the same success or failure, and whenever
the common normalized form is one of the valid engine names the whole
render-with-engine call behaves identically; for an invalid normalized form
both calls fail with a ValueError, but that message quotes the original,
un-normalized string, so the two error messages can differ. -/
theorem engine_normalization_insensitive {α : Type} (env : Env α) (spec : α)
    (format : String) (mode : Option String) (sf : Option Rat) (st : DTState)
    (e1 e2 : String)
    (h : normalizedEngineString e1 = normalizedEngineString e2) :
    ((∃ r, _validate_normalize_engine env.vlcAvailable env.altairSaverAvailable
        (some e1) format = Except.ok r)
      ↔ (∃ r, _validate_normalize_engine env.vlcAvailable env.altairSaverAvailable
        (some e2) format = Except.ok r))
    ∧ (normalizedEngineString e1 = "vlconvert"
        ∨ normalizedEngineString e1 = "altairsaver" →
      _spec_to_mimebundle_with_engine env spec format mode ⟨some e1, sf⟩ st
        = _spec_to_mimebundle_with_engine env spec format mode ⟨some e2, sf⟩ st) := by
  constructor
  · by_cases hv : normalizedEngineString e1 = "vlconvert"
      ∨ normalizedEngineString e1 = "altairsaver"
    · rw [resolve_some_congr env.vlcAvailable env.altairSaverAvailable format e1 e2 h hv]
    · push_neg at hv
      unfold _validate_normalize_engine
      simp only [← h, hv.1, hv.2]
      simp [hv.1, hv.2]
  · intro hv
    have hres := resolve_some_congr env.vlcAvailable env.altairSaverAvailable
      format e1 e2 h hv
    unfold _spec_to_mimebundle_with_engine
    simp only at hres ⊢
    rw [hres]

/-- Witness for engine_normalization_insensitive: "VL_Convert" and
"vl-convert" normalize identically and the whole call agrees. -/
theorem engine_normalization_insensitive_witness :
    _spec_to_mimebundle_with_engine testEnv 0 "svg" (some "vega-lite")
        ⟨some "VL_Convert", none⟩ testState
      = _spec_to_mimebundle_with_engine testEnv 0 "svg" (some "vega-lite")
        ⟨some "vl-convert", none⟩ testState :=
  (engine_normalization_insensitive testEnv 0 "svg" (some "vega-lite") none
    testState "VL_Convert" "vl-convert" (by decide)).2 (Or.inl (by decide))

/-- C8 counterexample: "A" and "a" normalize identically, yet resolution does
not behave identically: the invalid-engine ValueError quotes the original
string, so the two calls fail with different messages. -/
theorem engine_insensitivity_counterexample :
    normalizedEngineString "A" = normalizedEngineString "a"
    ∧ _validate_normalize_engine true true (some "A") "svg"
        = Except.error (Err.valueError (invalidEngineMsg "A"))
    ∧ _validate_normalize_engine true true (some "a") "svg"
        = Except.error (Err.valueError (invalidEngineMsg "a"))
    ∧ invalidEngineMsg "A" ≠ invalidEngineMsg "a" := by
  refine ⟨by decide, by rfl, by rfl, by decide⟩

/-- Helper: the engine dispatch helper leaves the data-transformer state as
it found it on every path, the error paths included. -/
theorem withEngine_preserves_state {α : Type} (env : Env α) (spec : α)
    (format : String) (mode : Option String) (kwargs : Kwargs) (st : DTState) :
    (_spec_to_mimebundle_with_engine env spec format mode kwargs st).2 = st := by
  unfold _spec_to_mimebundle_with_engine
  cases _validate_normalize_engine env.vlcAvailable env.altairSaverAvailable
      kwargs.engine format with
  | error e => rfl
  | ok ne =>
    by_cases h1 : ne = "vlconvert"
    · simp [h1, withTransformerOverride]
    · by_cases h2 : ne = "altairsaver" <;> simp [h1, h2]

/-- C9: during vl-convert dispatch the body runs under the overridden
transformer state (active transformer "default", row-limiting disabled), and
the prior state is restored on every exit path — the scoped override returns
the saved state whether the body returns a value or an exception, and the
whole engine dispatch and the whole spec_to_mimebundle call end in the state
they started in. -/
theorem transformer_override_scoped {α : Type} (env : Env α) (spec : α)
    (format : String) (mode : Option String)
    (vega_version vegaembed_version vegalite_version : Option String)
    (kwargs : Kwargs) (st : DTState) :
    (∀ (β : Type) (body : DTState → Except Err β),
      withTransformerOverride st body
        = (body { active := "default", maxRowsDisabled := true }, st))
    ∧ (_spec_to_mimebundle_with_engine env spec format mode kwargs st).2 = st
    ∧ (spec_to_mimebundle env spec format mode vega_version vegaembed_version
        vegalite_version kwargs st).2 = st := by
  refine ⟨fun β body => rfl, withEngine_preserves_state env spec format mode kwargs st, ?_⟩
  unfold spec_to_mimebundle
  split_ifs <;>
    first
      | rfl
      | exact withEngine_preserves_state env spec format mode kwargs st
      | (split <;> first | rfl | (split <;> rfl))

/-- Helper: if the altair_saver collaborator only ever returns single-entry
mappings, then every successful result of the engine dispatch helper is a
single-entry mapping (the vl-convert paths build singletons directly). -/
theorem withEngine_single_entry {α : Type} (env : Env α) (spec : α)
    (format : String) (mode : Option String) (kwargs : Kwargs) (st : DTState)
    (hsaver : ∀ s f m k r, env.altairSaverRender s f m k = Except.ok r →
      r.length = 1)
    (l : Mimebundle α)
    (hl : (_spec_to_mimebundle_with_engine env spec format mode kwargs st).1
      = Except.ok l) :
    l.length = 1 := by
  unfold _spec_to_mimebundle_with_engine at hl
  cases hres : _validate_normalize_engine env.vlcAvailable env.altairSaverAvailable
      kwargs.engine format with
  | error e => rw [hres] at hl; simp at hl
  | ok ne =>
    rw [hres] at hl
    by_cases h1 : ne = "vlconvert"
    · simp only [h1, if_pos, withTransformerOverride] at hl
      repeat' split at hl
      all_goals first | (injection hl with h; subst h; rfl) | injection hl
    · by_cases h2 : ne = "altairsaver"
      · simp [h1, h2] at hl
        exact hsaver _ _ _ _ l hl
      · simp [h1, h2] at hl

/-- C10 amended: every mimebundle this component builds itself has exactly one
entry; the altair-saver path returns the collaborator's mapping unmodified, so
the one-entry invariant holds for every successful code path exactly when the
collaborator only returns single-entry mappings. -/
theorem bundle_single_entry {α : Type} (env : Env α) (spec : α) (format : String)
    (mode : Option String)
    (vega_version vegaembed_version vegalite_version : Option String)
    (kwargs : Kwargs) (st : DTState) (l : Mimebundle α)
    (hsaver : ∀ s f m k r, env.altairSaverRender s f m k = Except.ok r →
      r.length = 1)
    (hl : (spec_to_mimebundle env spec format mode vega_version vegaembed_version
      vegalite_version kwargs st).1 = Except.ok l) :
    l.length = 1 := by
  unfold spec_to_mimebundle at hl
  split_ifs at hl <;>
    first
      | exact withEngine_single_entry env spec format mode kwargs st hsaver l hl
      | (repeat' split at hl
         all_goals first | (injection hl with h; subst h; rfl) | injection hl)

/-- Witness for bundle_single_entry: the json path of a concrete call yields a
one-entry bundle. -/
theorem bundle_single_entry_witness :
    ([("application/json", Value.vspec 0)] : Mimebundle Nat).length = 1 :=
  bundle_single_entry testEnv 0 "json" (some "vega") none none none testKwargs
    testState [("application/json", Value.vspec 0)]
    (fun s f m k r hr => by
      simp only [testEnv] at hr
      injection hr with h
      subst h
      rfl)
    (by rfl)

/-- C10 counterexample: the altair-saver path returns the collaborator's
result unmodified, so with a collaborator returning a two-entry mapping the
call succeeds with a bundle of two entries, not exactly one. -/
theorem saver_bundle_counterexample :
    (spec_to_mimebundle twoEntryEnv 0 "png" (some "vega-lite") none none none
        testKwargs testState).1
      = Except.ok [("image/png", Value.vbytes [1]), ("image/svg+xml", Value.vstr "x")]
    ∧ ([("image/png", Value.vbytes [1]), ("image/svg+xml", Value.vstr "x")] :
        Mimebundle Nat).length ≠ 1 := by
  refine ⟨by rfl, by decide⟩
